import Mathlib

/-!
Verification development for the Tachi Python SDK
(`src/v1-archive/packages/sdk-python/tachi_sdk/__init__.py`).

The SDK implements a pay-per-crawl HTTP protocol: a 402 response carries
payment terms; the client parses them, performs an on-chain USDC payment,
and replays the request with the transaction hash as proof.

The definitions below are a shallow embedding of that module:
- Python exceptions become an explicit `PyError` sum type
  (`TachiError` subclasses are `PyError.tachi` with their `code` string;
  library exceptions such as `ValueError` / `decimal.InvalidOperation`
  get their own constructors);
- HTTP and chain I/O become explicit parameters (`Request -> attempt ->
  transport result` functions; a `Chain` record answering balance /
  allowance queries and assigning hashes to submitted transactions);
- `decimal.Decimal` arithmetic is modelled exactly (coefficient /
  exponent pairs, exact division per the General Decimal Arithmetic
  specification); the 28-digit context-precision rounding of Python's
  default context is not modelled, as every quantity handled by the SDK
  is far below it and no claim depends on it;
- submitted transactions are accumulated in an explicit log so that
  "zero transactions" / "no approval transaction" properties are
  directly observable.
-/

namespace Tachi

/-- Decidable equality for `Except`, so closed facts about the modelled
operations can be settled by `decide`. -/
instance {ε α : Type} [DecidableEq ε] [DecidableEq α] : DecidableEq (Except ε α) := fun x y =>
  match x, y with
  | .ok a, .ok b =>
      if h : a = b then .isTrue (by rw [h]) else .isFalse (by simp [h])
  | .error a, .error b =>
      if h : a = b then .isTrue (by rw [h]) else .isFalse (by simp [h])
  | .ok _, .error _ => .isFalse (by simp)
  | .error _, .ok _ => .isFalse (by simp)

/-- Payment information parsed from a 402 response
(Python `PaymentInfo` TypedDict). -/
structure PaymentInfo where
  amount : String
  currency : String
  network : String
  chain_id : Int
  recipient : String
  token_address : String
  token_id : Option String
deriving Repr, DecidableEq

/-- Result of `fetch_with_tachi` (Python `TachiResponse` TypedDict). -/
structure TachiResponse where
  content : String
  status_code : Nat
  headers : List (String × String)
  payment_required : Bool
  payment_amount : Option String
  transaction_hash : Option String
deriving Repr, DecidableEq

/-- Structured contents of the `details` payload attached to the errors the
SDK raises (the Python code passes dictionaries / the parsed terms). -/
inductive ErrDetails where
  | info (i : PaymentInfo)
  | balanceShort (required : String) (available : String)
  | netFail (url : String) (lastError : String)
  | verifyFail (transaction_hash : String) (status : Nat)
  | payFail (i : PaymentInfo) (error : String)
deriving Repr, DecidableEq

/-- Python exceptions observable from the SDK code: `TachiError` (and its
subclasses `PaymentError` / `NetworkError`, distinguished by their `code`
string exactly as in the Python classes), `ValueError` (raised e.g. by
`Web3.to_checksum_address` and `int(...)`), and `decimal.InvalidOperation`
(raised by `Decimal(...)` on a malformed numeric string). -/
inductive PyError where
  | tachi (message : String) (code : String) (details : Option ErrDetails)
  | valueError (message : String)
  | invalidOperation (message : String)
deriving Repr, DecidableEq

/-- Python `str(exception)`: the exception's message. -/
def pyStr : PyError → String
  | .tachi m _ _ => m
  | .valueError m => m
  | .invalidOperation m => m

/-- The `code` attribute when the result is a raised `TachiError`,
`none` otherwise. -/
def errCode {α : Type} : Except PyError α → Option String
  | .error (.tachi _ c _) => some c
  | _ => none

/-- JSON body fallback: the nested `payment` object of a 402 response body
(`body["payment"]`).  Absent keys are `none`; `chainId` is kept as the
integer a JSON number decodes to. -/
structure PaymentBody where
  amount : Option String := none
  currency : Option String := none
  network : Option String := none
  chainId : Option Int := none
  recipient : Option String := none
  tokenAddress : Option String := none
  tokenId : Option String := none
deriving Repr, DecidableEq

/-- An HTTP response as the SDK observes it: status code, text, headers, and
the `payment` object of the JSON body when the body decodes to JSON and has
one (`response.json().get("payment", {})`); `none` plays the role of the
empty dictionary the Python code falls back to. -/
structure HttpResponse where
  status_code : Nat
  text : String := ""
  headers : List (String × String) := []
  payment : Option PaymentBody := none
deriving Repr, DecidableEq

/-- An HTTP request as handed to the transport (after the SDK has set its
`User-Agent`, and `Authorization` on the replay). -/
structure Request where
  url : String
  method : String
  headers : List (String × String)
  body : Option String
deriving Repr, DecidableEq

/-- SDK configuration (Python `TachiConfig` dataclass); only the fields the
modelled operations read.  `private_key` decides whether an account object
exists (`_initialize_account` sets `self.account` only from a truthy
private key). -/
structure TachiConfig where
  network : String
  rpc_url : String
  private_key : Option String := none
  account_address : Option String := none
  payment_processor_address : Option String := none
  user_agent : String := "TachiSDK-Python/1.0"
  timeout : Nat := 30
  max_retries : Nat := 3
deriving Repr, DecidableEq

/-- Python truthiness of an optional string (`None` and `""` are falsy). -/
def pyTruthy : Option String → Bool
  | some s => s ≠ ""
  | none => false

/-- Whether `self.account` was initialized: `_initialize_account` sets it
iff `config.private_key` is truthy. -/
def hasAccount (cfg : TachiConfig) : Bool :=
  pyTruthy cfg.private_key

/-- Python `a or b` for an optional string `a` and an already-computed
fallback `b` (falls through on `None` and on the empty string). -/
def pyOr (a : Option String) (b : String) : String :=
  match a with
  | some s => if s = "" then b else s
  | none => b

/-- Python f-string rendering of an optional value (`None` prints "None"). -/
def pyOptStr (a : Option String) : String :=
  a.getD "None"

/-- Python `dict[key] = value` on an insertion-ordered dictionary encoded as
an association list: replaces in place, else appends. -/
def setKey : List (String × String) → String → String → List (String × String)
  | [], k, v => [(k, v)]
  | (k', v') :: t, k, v =>
      if k' = k then (k, v) :: t else (k', v') :: setKey t k v

/-- On-chain transactions the SDK can submit (built, signed and sent via
`send_raw_transaction`): a USDC `approve(spender, amount)` or a
PaymentProcessor `payPublisher(publisher, amount)` call. -/
inductive Tx where
  | approve (spender : String) (amount : Int)
  | payPublisher (publisher : String) (amount : Int)
deriving Repr, DecidableEq

/-- The ledger as the SDK queries it during one payment attempt: the USDC
balance of the account, the allowance `allowance(account, recipient)` for
the settlement recipient, and the hash the network assigns to the n-th
transaction submitted during the attempt.  Gas price and nonce are fetched
by the Python code but only flow into transaction fields no claim observes,
so they are not carried here. -/
structure Chain where
  balance : Nat
  allowance : Nat
  hashOf : Nat → String

/-! Exact decimal arithmetic, modelling Python's `decimal.Decimal` on the
operations the SDK performs: construction from a string, exact division by
`Decimal(10 ** 6)`, multiplication by `Decimal(10 ** 6)` followed by
`int(...)` truncation, and `str(...)` rendering. -/

/-- Numeric value of a list of decimal digit characters (most significant
first). -/
def digitsVal (cs : List Char) : Nat :=
  cs.foldl (fun a c => 10 * a + (c.toNat - 48)) 0

/-- Split a character list at the first `'.'`: the part before it and,
when a dot is present, the part after it. -/
def splitDot : List Char → List Char × Option (List Char)
  | [] => ([], none)
  | c :: rest =>
      if c = '.' then ([], some rest)
      else
        let (a, b) := splitDot rest
        (c :: a, b)

/-- Parse the unsigned part of a `Decimal` literal: digits with at most one
decimal point and at least one digit.  Returns the coefficient and the
number of fractional digits. -/
def parseDecDigits (cs : List Char) : Option (Nat × Nat) :=
  let (ip, fpOpt) := splitDot cs
  let fp := fpOpt.getD []
  if ip.all Char.isDigit && fp.all Char.isDigit && (ip ≠ [] ∨ fp ≠ []) then
    some (digitsVal (ip ++ fp), fp.length)
  else
    none

/-- Parse a `Decimal` string literal into (sign, coefficient, fractional
digit count), i.e. the value `± coefficient / 10 ^ scale`.  Covers plain
signed decimal literals (the only numeric shape the protocol carries);
exponent forms and special values are not modelled. -/
def parseDec (s : String) : Option (Bool × Nat × Nat) :=
  match s.toList with
  | '-' :: rest => (parseDecDigits rest).map (fun p => (true, p))
  | '+' :: rest => (parseDecDigits rest).map (fun p => (false, p))
  | rest => (parseDecDigits rest).map (fun p => (false, p))

/-- Number of factors of ten dividing `c`, capped at `cap` (`0` for `c = 0`). -/
def tenVal : Nat → Nat → Nat
  | 0, _ => 0
  | cap + 1, c => if c ≠ 0 ∧ c % 10 = 0 then tenVal cap (c / 10) + 1 else 0

/-- Exact division of the decimal `coeff / 10 ^ scale` by `10 ^ 6`,
returning the result's coefficient and exponent per the General Decimal
Arithmetic specification: the exact quotient is expressed with the ideal
exponent `-scale` when possible, otherwise trailing zeros are removed only
as far as exactness requires (a division by `10 ^ 6` is always exact). -/
def divPow6 (coeff : Nat) (scale : Nat) : Nat × Int :=
  if coeff = 0 then (0, -(scale : Int))
  else
    let k := tenVal 6 coeff
    (coeff / 10 ^ k, (k : Int) - ((scale : Int) + 6))

/-- Render a nonnegative decimal `coeff × 10 ^ exp` the way Python's
`Decimal.__str__` does: positional notation, switching to scientific
notation when the adjusted exponent drops below `-6` (or the exponent is
positive, which the SDK's divisions never produce). -/
def decStrCore (coeff : Nat) (exp : Int) : String :=
  let ds := Nat.toDigits 10 coeff
  let nd : Int := ds.length
  let adjusted := exp + nd - 1
  if exp ≤ 0 ∧ -6 ≤ adjusted then
    if exp = 0 then String.mk ds
    else
      let k := (-exp).toNat
      if ds.length > k then
        String.mk (ds.take (ds.length - k)) ++ "." ++
          String.mk (ds.drop (ds.length - k))
      else
        "0." ++ String.mk (List.replicate (k - ds.length) '0') ++ String.mk ds
  else
    let mant :=
      if ds.length = 1 then String.mk ds
      else String.mk (ds.take 1) ++ "." ++ String.mk (ds.drop 1)
    mant ++ "E" ++ (if 0 ≤ adjusted then "+" ++ toString adjusted.toNat
                    else toString adjusted)

/-- Signed rendering of a decimal (Python keeps the sign even on zero). -/
def decStr (neg : Bool) (coeff : Nat) (exp : Int) : String :=
  (if neg then "-" else "") ++ decStrCore coeff exp

/-- Python `str(Decimal(s) / Decimal(10 ** 6))`; raises
`decimal.InvalidOperation` when `s` is not a numeric literal, exactly as
`Decimal(s)` does. -/
def divPow6Str (s : String) : Except PyError String :=
  match parseDec s with
  | none => .error (.invalidOperation s)
  | some (neg, n, scale) =>
      let (c, e) := divPow6 n scale
      .ok (decStr neg c e)

/-- Python `str(Decimal(n) / Decimal(10 ** 6))` for a nonnegative integer
`n` — how the SDK formats base-unit USDC balances. -/
def usdcStr (n : Nat) : String :=
  let (c, e) := divPow6 n 0
  decStr false c e

/-- Python `int(Decimal(s) * Decimal(10 ** 6))`: exact scaling by `10 ^ 6`
then truncation toward zero; raises `decimal.InvalidOperation` when `s` is
not a numeric literal. -/
def decimalToWei (s : String) : Except PyError Int :=
  match parseDec s with
  | none => .error (.invalidOperation s)
  | some (neg, n, scale) =>
      let mag : Nat := n * 10 ^ 6 / 10 ^ scale
      .ok (if neg then -(mag : Int) else (mag : Int))

/-- Python `int(s)` for a string: optional sign then digits; raises
`ValueError` otherwise. -/
def pyInt (s : String) : Except PyError Int :=
  let parseNat : List Char → Except PyError Nat := fun cs =>
    if cs ≠ [] ∧ cs.all Char.isDigit then .ok (digitsVal cs)
    else .error (.valueError ("invalid literal for int() with base 10: " ++ s))
  match s.toList with
  | '-' :: rest => (parseNat rest).map (fun n => -(n : Int))
  | '+' :: rest => (parseNat rest).map (fun n => (n : Int))
  | rest => (parseNat rest).map (fun n => (n : Int))

/-- Hexadecimal digit test. -/
def isHexDigitChar (c : Char) : Bool :=
  c.isDigit || ('a' ≤ c && c ≤ 'f') || ('A' ≤ c && c ≤ 'F')

/-- Whether a string has the shape of a hex Ethereum address:
`0x` followed by exactly 40 hexadecimal digits (any casing). -/
def isHexAddress (s : String) : Bool :=
  match s.toList with
  | '0' :: 'x' :: rest => rest.length = 40 && rest.all isHexDigitChar
  | _ => false

/-- Models `Web3.to_checksum_address` (i.e. `eth_utils.to_checksum_address`):
accepts any string shaped like a hex address regardless of casing and
returns its EIP-55 form; raises `ValueError` for anything else, including
the empty string.  The EIP-55 recasing itself is abstracted as the identity
because no claim observes letter casing, only success, failure and
non-emptiness of the result. -/
def to_checksum_address (s : String) : Except PyError String :=
  if isHexAddress s then .ok s
  else .error (.valueError
    ("Unknown format '" ++ s ++ "', attempted to normalize to checksum address."))

/-! The SDK operations (`TachiSDK` methods). -/

/-- Outcome of one `_make_http_request` call: the returned response or the
raised error, together with the backoff delays slept (in time units, i.e.
seconds of `time.sleep`) and the number of transport attempts made. -/
structure HttpCall where
  result : Except PyError HttpResponse
  delays : List Nat
  attempts : Nat
deriving Repr

/-- The retry loop of `TachiSDK._make_http_request`, iterating over the
attempt numbers `range(1, max_retries + 1)`.  A transport failure on the
final attempt raises `NetworkError` with the attempt count and the last
underlying error; a failure earlier sleeps `2 ** attempt` and retries; an
exhausted (empty) range falls through to the trailing
`NetworkError(f"Request failed: {last_error}")`. -/
def runAttempts (url : String) (maxRetries : Nat)
    (transport : Nat → Except String HttpResponse) :
    List Nat → Option String → HttpCall
  | [], lastError =>
      ⟨.error (.tachi ("Request failed: " ++ pyOptStr lastError)
          "NETWORK_ERROR" none), [], 0⟩
  | attempt :: rest, _ =>
      match transport attempt with
      | .ok resp => ⟨.ok resp, [], 1⟩
      | .error e =>
          if attempt = maxRetries then
            ⟨.error (.tachi ("Request failed after " ++ toString maxRetries ++ " attempts")
                "NETWORK_ERROR" (some (.netFail url e))), [], 1⟩
          else
            let tail := runAttempts url maxRetries transport rest (some e)
            ⟨tail.result, 2 ^ attempt :: tail.delays, tail.attempts + 1⟩

/-- `TachiSDK._make_http_request`: the retry loop started at attempt 1.
The transport function abstracts `self.session.request(...)`: it returns
the response of the given attempt, or the description of the
`requests.RequestException` it raises. -/
def make_http_request (url : String) (maxRetries : Nat)
    (transport : Nat → Except String HttpResponse) : HttpCall :=
  runAttempts url maxRetries transport (List.range' 1 maxRetries) none

/-- `body.get("payment", {}).get(field, dflt)` for the modelled body. -/
def bget (pay : Option PaymentBody) (f : PaymentBody → Option α) (dflt : α) : α :=
  match pay with
  | some b => (f b).getD dflt
  | none => dflt

/-- `TachiSDK._parse_payment_info`: extract payment terms from a 402
response, headers preferred, JSON body fallback.  Exceptions raised midway
(`decimal.InvalidOperation` from `Decimal(price)`, `ValueError` from
`int(...)` or `Web3.to_checksum_address`) propagate, in the Python
evaluation order: amount conversion, then the constructor arguments
`chain_id`, `recipient`, `token_address`. -/
def parse_payment_info (resp : HttpResponse) : Except PyError PaymentInfo :=
  let pay := resp.payment
  let price := resp.headers.lookup "x402-price"
  let currency := resp.headers.lookup "x402-currency"
  let recipient := resp.headers.lookup "x402-recipient"
  let token_address := resp.headers.lookup "x402-contract"
  let chain_id := resp.headers.lookup "x402-chain-id"
  let amountE : Except PyError String :=
    if pyTruthy price ∧ currency = some "USDC" then
      divPow6Str (price.getD "")
    else
      .ok (pyOr price (bget pay (fun b => b.amount) "0"))
  match amountE with
  | .error e => .error e
  | .ok amount =>
    let chainIdE : Except PyError Int :=
      if pyTruthy chain_id then pyInt (chain_id.getD "")
      else .ok (bget pay (fun b => b.chainId) 8453)
    match chainIdE with
    | .error e => .error e
    | .ok chainIdV =>
      match to_checksum_address (pyOr recipient (bget pay (fun b => b.recipient) "")) with
      | .error e => .error e
      | .ok recipientV =>
        match to_checksum_address (pyOr token_address (bget pay (fun b => b.tokenAddress) "")) with
        | .error e => .error e
        | .ok tokenV =>
          let info : PaymentInfo :=
            { amount := amount
              currency := pyOr currency (bget pay (fun b => b.currency) "USDC")
              network := bget pay (fun b => b.network) "Base"
              chain_id := chainIdV
              recipient := recipientV
              token_address := tokenV
              token_id := pay.bind (fun b => b.tokenId) }
          if info.recipient = "" ∨ info.token_address = "" then
            .error (.tachi "Invalid payment information in 402 response"
              "PAYMENT_ERROR" (some (.info info)))
          else
            .ok info

/-- The body of the `try` block of `TachiSDK._process_payment`: query the
balance, fail fast when it is short, submit an approval only when the
allowance is short, then submit the `payPublisher` settlement call and
return its hash.  The second component is the log of transactions submitted
up to the point of return. -/
def processPaymentTry (cfg : TachiConfig) (chain : Chain) (info : PaymentInfo)
    (wei : Int) : Except PyError String × List Tx :=
  if (chain.balance : Int) < wei then
    (.error (.tachi ("Insufficient USDC balance. Required: " ++ info.amount ++
        ", Available: " ++ usdcStr chain.balance)
        "PAYMENT_ERROR" (some (.balanceShort info.amount (usdcStr chain.balance)))), [])
  else
    let approvals : List Tx :=
      if (chain.allowance : Int) < wei then [.approve info.recipient wei] else []
    let publisher := pyOr cfg.payment_processor_address info.recipient
    let txHash := chain.hashOf approvals.length
    (.ok txHash, approvals ++ [.payPublisher publisher wei])

/-- `TachiSDK._process_payment`: fails with `PaymentError` when no account
is initialized; computes `amount_in_wei = int(Decimal(amount) * 10 ** 6)`
outside the `try` block (so a malformed amount raises an unwrapped
`decimal.InvalidOperation`); any exception inside the `try` block —
including the insufficient-balance `PaymentError` itself — is caught and
re-raised as `PaymentError("Payment transaction failed: ...")` carrying the
terms and the underlying message. -/
def process_payment (cfg : TachiConfig) (chain : Chain) (info : PaymentInfo) :
    Except PyError String × List Tx :=
  if hasAccount cfg = false then
    (.error (.tachi "Account not initialized. Private key required for payments."
        "PAYMENT_ERROR" none), [])
  else
    match decimalToWei info.amount with
    | .error e => (.error e, [])
    | .ok wei =>
        match processPaymentTry cfg chain info wei with
        | (.ok h, txs) => (.ok h, txs)
        | (.error e, txs) =>
            (.error (.tachi ("Payment transaction failed: " ++ pyStr e)
                "PAYMENT_ERROR" (some (.payFail info (pyStr e)))), txs)

/-- `TachiSDK.get_usdc_balance`: requires an initialized account (raising
`TachiError` with code `CONFIG_ERROR` otherwise) and returns the base-unit
balance with its formatted decimal string. -/
def get_usdc_balance (cfg : TachiConfig) (chain : Chain) :
    Except PyError (Nat × String) :=
  if hasAccount cfg = false then
    .error (.tachi "Account not initialized. Private key required."
      "CONFIG_ERROR" none)
  else
    .ok (chain.balance, usdcStr chain.balance)

/-- Outcome of a `fetch_with_tachi` call: the result or raised error, the
on-chain transactions submitted, and the HTTP requests issued (one entry
per `_make_http_request` call, as put on the wire). -/
structure FetchOut where
  result : Except PyError TachiResponse
  txs : List Tx
  reqs : List Request
deriving Repr

/-- `TachiSDK.fetch_with_tachi`: issue the request; on a non-402 return the
content with `payment_required = False`; on a 402 parse the terms, process
the payment, replay the request with `Authorization: Bearer <hash>`, fail
with `PaymentError` if the replay is not a 200, and otherwise return the
paid content with the amount and transaction hash.  `env` abstracts the
network: the transport outcome for a given request and attempt number. -/
def fetch_with_tachi (cfg : TachiConfig) (chain : Chain)
    (env : Request → Nat → Except String HttpResponse)
    (url method : String) (headers : List (String × String))
    (body : Option String) : FetchOut :=
  let req1 : Request := ⟨url, method, setKey headers "User-Agent" cfg.user_agent, body⟩
  match (make_http_request url cfg.max_retries (env req1)).result with
  | .error e => ⟨.error e, [], [req1]⟩
  | .ok resp1 =>
    if resp1.status_code ≠ 402 then
      ⟨.ok ⟨resp1.text, resp1.status_code, resp1.headers, false, none, none⟩,
        [], [req1]⟩
    else
      match parse_payment_info resp1 with
      | .error e => ⟨.error e, [], [req1]⟩
      | .ok info =>
        match process_payment cfg chain info with
        | (.error e, txs) => ⟨.error e, txs, [req1]⟩
        | (.ok txHash, txs) =>
          let authHeaders := setKey headers "Authorization" ("Bearer " ++ txHash)
          let req2 : Request := ⟨url, method, setKey authHeaders "User-Agent" cfg.user_agent, body⟩
          match (make_http_request url cfg.max_retries (env req2)).result with
          | .error e => ⟨.error e, txs, [req1, req2]⟩
          | .ok resp2 =>
            if resp2.status_code ≠ 200 then
              ⟨.error (.tachi ("Payment verification failed: " ++ toString resp2.status_code)
                  "PAYMENT_ERROR" (some (.verifyFail txHash resp2.status_code))),
                txs, [req1, req2]⟩
            else
              ⟨.ok ⟨resp2.text, resp2.status_code, resp2.headers, true,
                  some info.amount, some txHash⟩,
                txs, [req1, req2]⟩

/-! Concrete fixtures used to instantiate the theorems below. -/

/-- A settlement recipient address. -/
def addrRecipient : String := "0x1111111111111111111111111111111111111111"

/-- A token (USDC) contract address. -/
def addrToken : String := "0x2222222222222222222222222222222222222222"

/-- A crawler account address. -/
def addrAccount : String := "0x3333333333333333333333333333333333333333"

/-- A 402 response advertising 1 USDC in base units through the protocol
headers. -/
def resp402Std : HttpResponse :=
  { status_code := 402, text := "Payment Required",
    headers := [("x402-price", "1000000"), ("x402-currency", "USDC"),
                ("x402-recipient", addrRecipient), ("x402-contract", addrToken)] }

/-- A 402 response with a price header but no currency header. -/
def resp402NoCurrency : HttpResponse :=
  { status_code := 402, text := "Payment Required",
    headers := [("x402-price", "500"),
                ("x402-recipient", addrRecipient), ("x402-contract", addrToken)] }

/-- A 402 response carrying no recipient and no token address, in headers
or body. -/
def resp402NoAddress : HttpResponse :=
  { status_code := 402, text := "Payment Required",
    headers := [("x402-price", "1000000"), ("x402-currency", "USDC")] }

/-- A successful content response. -/
def resp200Std : HttpResponse := { status_code := 200, text := "the content" }

/-- A not-found response (server rejecting the payment proof). -/
def resp404Std : HttpResponse := { status_code := 404, text := "not found" }

/-- A configuration holding a signing credential. -/
def cfgStd : TachiConfig :=
  { network := "base-sepolia", rpc_url := "http://rpc.local",
    private_key := some "0xsecretkey" }

/-- A configuration with only an externally supplied account address and no
signing credential. -/
def cfgReadOnly : TachiConfig :=
  { network := "base-sepolia", rpc_url := "http://rpc.local",
    private_key := none, account_address := some addrAccount }

/-- A ledger with 2 USDC of balance and no allowance granted yet. -/
def chainStd : Chain :=
  { balance := 2000000, allowance := 0, hashOf := fun n => "0xhash" ++ toString n }

/-- A ledger with 2 USDC of balance and an ample pre-existing allowance. -/
def chainApproved : Chain :=
  { balance := 2000000, allowance := 5000000, hashOf := fun n => "0xhash" ++ toString n }

/-- A ledger whose balance is short of 1 USDC. -/
def chainPoor : Chain :=
  { balance := 250000, allowance := 0, hashOf := fun n => "0xhash" ++ toString n }

/-- The terms parsed from `resp402Std`. -/
def infoStd : PaymentInfo :=
  { amount := "1", currency := "USDC", network := "Base", chain_id := 8453,
    recipient := addrRecipient, token_address := addrToken, token_id := none }

/-- The terms parsed from `resp402NoCurrency`: the raw price string,
unconverted, with the currency defaulted from the body fallback. -/
def infoNoCurrency : PaymentInfo :=
  { amount := "500", currency := "USDC", network := "Base", chain_id := 8453,
    recipient := addrRecipient, token_address := addrToken, token_id := none }

/-- The result of a successful paid fetch against `chainStd` (one approval
at hash index 0, the payment at hash index 1). -/
def respPaid : TachiResponse :=
  { content := "the content", status_code := 200, headers := [],
    payment_required := true, payment_amount := some "1",
    transaction_hash := some "0xhash1" }

/-- A network that answers the original request with `resp402Std` and any
request carrying an `Authorization` header with `resp200Std`. -/
def envPaid : Request → Nat → Except String HttpResponse := fun req _ =>
  if (req.headers.lookup "Authorization").isSome then .ok resp200Std
  else .ok resp402Std

/-- A network that demands payment and then rejects the proof with a 404. -/
def envReplay404 : Request → Nat → Except String HttpResponse := fun req _ =>
  if (req.headers.lookup "Authorization").isSome then .ok resp404Std
  else .ok resp402Std

/-- A network that serves content directly, with no payment demand. -/
def envFree : Request → Nat → Except String HttpResponse := fun _ _ =>
  .ok resp200Std

/-! Helper lemmas about the dictionary-update model. -/

/-- Looking up the key just set returns the value set. -/
theorem lookup_setKey_self (l : List (String × String)) (k v : String) :
    (setKey l k v).lookup k = some v := by
  induction l with
  | nil => simp [setKey, List.lookup]
  | cons hd tl ih =>
    obtain ⟨k', v'⟩ := hd
    by_cases h : k' = k
    · simp [setKey, h, List.lookup]
    · have hb : (k == k') = false := by
        simpa using Ne.symm h
      simp [setKey, h, List.lookup, hb, ih]

/-- Setting one key leaves lookups of any other key unchanged. -/
theorem lookup_setKey_other (l : List (String × String)) (k k2 v : String)
    (h : k2 ≠ k) : (setKey l k v).lookup k2 = l.lookup k2 := by
  induction l with
  | nil =>
    have hb : (k2 == k) = false := by simpa using h
    simp [setKey, List.lookup, hb]
  | cons hd tl ih =>
    obtain ⟨k', v'⟩ := hd
    by_cases hk : k' = k
    · subst hk
      have hb : (k2 == k') = false := by simpa using h
      simp [setKey, List.lookup, hb]
    · simp [setKey, hk, List.lookup, ih]

/-! Claim theorems. -/

/-- C1: the claim says a 402 response missing the recipient or token
address fails parsing with a `PaymentError` carrying the partially-parsed
terms and "never fails with any other error type".  The code's own
"Validate required fields" check (which would raise exactly that
`PaymentError`) is unreachable for missing addresses: the empty-string
default is handed to `Web3.to_checksum_address`, which raises a plain
`ValueError` first.  Evaluating the parser at a 402 response with no
recipient and no token address anywhere shows the raised error is a
`ValueError`, not a `PaymentError`. -/
theorem c1_missing_address_raises_value_error :
    parse_payment_info resp402NoAddress =
      .error (.valueError "Unknown format '', attempted to normalize to checksum address.") ∧
    errCode (parse_payment_info resp402NoAddress) ≠ some "PAYMENT_ERROR" := by
  decide

/-- C2 counterexample: at a 402 response with header price 1000000,
header currency USDC and valid recipient and token addresses, the parsed
amount is the string "1" — not "1.0" as the claim states. -/
theorem c2_counterexample_amount_renders_as_1 :
    (parse_payment_info resp402Std).map (fun i => i.amount) = .ok "1" ∧
    (parse_payment_info resp402Std).map (fun i => i.amount) ≠ .ok "1.0" := by
  decide

/-- C2 (amended): for every 402 response with header price 1000000 and
header currency USDC that parses successfully (hence has valid recipient
and token addresses), the parsed amount is the exact decimal quotient
1000000 / 10^6 rendered by Python's `Decimal`, namely the string "1". -/
theorem c2_price_1000000_usdc_parses_to_amount_1
    (resp : HttpResponse) (info : PaymentInfo)
    (hp : resp.headers.lookup "x402-price" = some "1000000")
    (hc : resp.headers.lookup "x402-currency" = some "USDC")
    (hok : parse_payment_info resp = .ok info) :
    info.amount = "1" := by
  unfold parse_payment_info at hok
  rw [hp, hc] at hok
  simp only [] at hok
  split at hok
  · exact absurd hok (by simp)
  · rename_i amt heq
    rw [if_pos (by decide)] at heq
    rw [show divPow6Str ((some "1000000").getD "") = Except.ok "1" from by decide] at heq
    injection heq with hamt
    subst hamt
    split at hok
    · exact absurd hok (by simp)
    · split at hok
      · exact absurd hok (by simp)
      · split at hok
        · exact absurd hok (by simp)
        · split at hok
          · exact absurd hok (by simp)
          · simp only [Except.ok.injEq] at hok
            rw [← hok]

/-- C2 witness: the amended theorem applied to the standard 402 fixture. -/
theorem c2_price_1000000_usdc_parses_to_amount_1_witness :
    resp402Std.headers.lookup "x402-price" = some "1000000" ∧
    resp402Std.headers.lookup "x402-currency" = some "USDC" ∧
    parse_payment_info resp402Std = .ok infoStd ∧
    infoStd.amount = "1" :=
  ⟨by decide, by decide, by decide,
    c2_price_1000000_usdc_parses_to_amount_1 resp402Std infoStd
      (by decide) (by decide) (by decide)⟩

/-- C3: when the price header is present (and nonempty) but the currency
header is not literally "USDC" (absent, empty, or a different string), the
parsed amount is the raw base-unit price string, unconverted — and the
payment step then scales that raw string by 10^6 again when computing the
base-unit transfer amount. -/
theorem c3_no_conversion_without_usdc_currency_header
    (resp : HttpResponse) (info : PaymentInfo) (p : String) (n : Nat)
    (hp : resp.headers.lookup "x402-price" = some p)
    (hpne : p ≠ "")
    (hc : resp.headers.lookup "x402-currency" ≠ some "USDC")
    (hn : parseDec p = some (false, n, 0))
    (hok : parse_payment_info resp = .ok info) :
    info.amount = p ∧ decimalToWei info.amount = .ok ((n * 10 ^ 6 : Nat) : Int) := by
  have hamount : info.amount = p := by
    unfold parse_payment_info at hok
    rw [hp] at hok
    simp only [] at hok
    split at hok
    · exact absurd hok (by simp)
    · rename_i amt heq
      rw [if_neg (fun hand => hc hand.2)] at heq
      have hamt : pyOr (some p) (bget resp.payment (fun b => b.amount) "0") = p := by
        simp [pyOr, hpne]
      rw [hamt] at heq
      injection heq with hamt2
      subst hamt2
      split at hok
      · exact absurd hok (by simp)
      · split at hok
        · exact absurd hok (by simp)
        · split at hok
          · exact absurd hok (by simp)
          · split at hok
            · exact absurd hok (by simp)
            · simp only [Except.ok.injEq] at hok
              rw [← hok]
  refine ⟨hamount, ?_⟩
  rw [hamount]
  unfold decimalToWei
  rw [hn]
  simp

/-- C3 witness: a 402 response with price header "500" and no currency
header parses to the raw amount "500" (even though the currency then
defaults to "USDC" from the fallback), and the payment step scales it to
500 * 10^6 base units. -/
theorem c3_no_conversion_without_usdc_currency_header_witness :
    (resp402NoCurrency.headers.lookup "x402-price" = some "500" ∧
     "500" ≠ "" ∧
     resp402NoCurrency.headers.lookup "x402-currency" ≠ some "USDC" ∧
     parseDec "500" = some (false, 500, 0) ∧
     parse_payment_info resp402NoCurrency = .ok infoNoCurrency) ∧
    infoNoCurrency.amount = "500" ∧
    decimalToWei infoNoCurrency.amount = .ok ((500 * 10 ^ 6 : Nat) : Int) :=
  ⟨⟨by decide, by decide, by decide, by decide, by decide⟩,
    c3_no_conversion_without_usdc_currency_header resp402NoCurrency
      infoNoCurrency "500" 500 (by decide) (by decide) (by decide)
      (by decide) (by decide)⟩

/-- C4: whenever the queried balance is strictly below the required
base-unit amount, `_process_payment` fails with a `PaymentError` (the
insufficient-balance error, re-wrapped by the catch-all handler, still a
`PaymentError`) and the transaction log is empty: nothing was built,
signed or sent. -/
theorem c4_insufficient_balance_fails_with_no_transactions
    (cfg : TachiConfig) (chain : Chain) (info : PaymentInfo) (wei : Int)
    (ha : hasAccount cfg = true)
    (hw : decimalToWei info.amount = .ok wei)
    (hb : (chain.balance : Int) < wei) :
    ∃ msg d, process_payment cfg chain info =
      (.error (.tachi msg "PAYMENT_ERROR" d), []) := by
  unfold process_payment processPaymentTry
  rw [ha, hw]
  simp [hb, pyStr]

/-- C4 witness: a ledger holding 0.25 USDC against a 1 USDC requirement. -/
theorem c4_insufficient_balance_fails_with_no_transactions_witness :
    (hasAccount cfgStd = true ∧
     decimalToWei infoStd.amount = .ok 1000000 ∧
     ((chainPoor.balance : Int) < 1000000)) ∧
    ∃ msg d, process_payment cfgStd chainPoor infoStd =
      (.error (.tachi msg "PAYMENT_ERROR" d), []) :=
  ⟨⟨by decide, by decide, by decide⟩,
    c4_insufficient_balance_fails_with_no_transactions cfgStd chainPoor infoStd
      1000000 (by decide) (by decide) (by decide)⟩

/-- C5 counterexample: with `max_retries = 2` and a transport failing on
every attempt, the fetch client sleeps exactly once, 2 time units after
the first failed attempt — it does not produce the delays 2 and 4 the
claim states (the final failed attempt raises immediately, with no second
backoff). -/
theorem c5_counterexample_single_delay_of_2 :
    (make_http_request "http://pub.example" 2
        (fun _ => .error "connection refused")).delays = [2] ∧
    (make_http_request "http://pub.example" 2
        (fun _ => .error "connection refused")).delays ≠ [2, 4] := by
  decide

/-- C5 (amended): with `max_retries = 2` and a transport that fails on
every attempt, the fetch client makes exactly 2 attempts with a single
backoff delay of 2 time units between them, then raises a `NetworkError`
whose message carries the attempt count and whose details carry the last
underlying failure description. -/
theorem c5_two_attempts_single_delay_then_network_error
    (url : String) (f : Nat → String) :
    make_http_request url 2 (fun n => .error (f n)) =
      ⟨.error (.tachi "Request failed after 2 attempts" "NETWORK_ERROR"
          (some (.netFail url (f 2)))), [2], 2⟩ :=
  rfl

/-- C6 counterexample: with a configuration holding only an account
address and no signing credential, a payment attempt raises a
`PaymentError` (code PAYMENT_ERROR), not a ConfigError, and the balance
query is not available either — it raises `TachiError` with code
CONFIG_ERROR instead of returning a balance. -/
theorem c6_counterexample_payment_error_and_no_balance :
    errCode (process_payment cfgReadOnly chainStd infoStd).1 = some "PAYMENT_ERROR" ∧
    (some "PAYMENT_ERROR" : Option String) ≠ some "CONFIG_ERROR" ∧
    get_usdc_balance cfgReadOnly chainStd =
      .error (.tachi "Account not initialized. Private key required."
        "CONFIG_ERROR" none) := by
  decide

/-- C6 (amended): without a signing credential a payment operation fails
immediately with a `PaymentError` ("Account not initialized"), and balance
queries are not available either: they fail with `TachiError` code
CONFIG_ERROR, even when an account address is configured. -/
theorem c6_no_key_payment_error_and_balance_config_error
    (cfg : TachiConfig) (chain : Chain) (info : PaymentInfo)
    (h : cfg.private_key = none) :
    process_payment cfg chain info =
      (.error (.tachi "Account not initialized. Private key required for payments."
        "PAYMENT_ERROR" none), []) ∧
    get_usdc_balance cfg chain =
      .error (.tachi "Account not initialized. Private key required."
        "CONFIG_ERROR" none) := by
  unfold process_payment get_usdc_balance
  simp [hasAccount, pyTruthy, h]

/-- C6 witness: the amended theorem at the read-only configuration. -/
theorem c6_no_key_payment_error_and_balance_config_error_witness :
    cfgReadOnly.private_key = none ∧
    (process_payment cfgReadOnly chainStd infoStd =
      (.error (.tachi "Account not initialized. Private key required for payments."
        "PAYMENT_ERROR" none), []) ∧
    get_usdc_balance cfgReadOnly chainStd =
      .error (.tachi "Account not initialized. Private key required."
        "CONFIG_ERROR" none)) :=
  ⟨by decide,
    c6_no_key_payment_error_and_balance_config_error cfgReadOnly chainStd infoStd
      (by decide)⟩

/-- C7: every `TachiResponse` actually returned by `fetch_with_tachi` has
its payment amount and transaction hash present exactly when
`payment_required` is true: the non-402 path returns false/absent/absent
and the successful paid path returns true/present/present. -/
theorem c7_payment_fields_present_iff_payment_required
    (cfg : TachiConfig) (chain : Chain)
    (env : Request → Nat → Except String HttpResponse)
    (url method : String) (headers : List (String × String)) (body : Option String)
    (r : TachiResponse)
    (h : (fetch_with_tachi cfg chain env url method headers body).result = .ok r) :
    (r.payment_amount.isSome ∧ r.transaction_hash.isSome) ↔ r.payment_required = true := by
  unfold fetch_with_tachi at h
  simp only [] at h
  split at h
  · exact absurd h (by simp)
  · split at h
    · simp only [Except.ok.injEq] at h
      rw [← h]
      simp
    · split at h
      · exact absurd h (by simp)
      · split at h
        · exact absurd h (by simp)
        · split at h
          · exact absurd h (by simp)
          · split at h
            · exact absurd h (by simp)
            · simp only [Except.ok.injEq] at h
              rw [← h]
              simp

/-- C7 witness: the invariant at a successful paid fetch (both fields
present, `payment_required` true). -/
theorem c7_payment_fields_present_iff_payment_required_witness :
    (fetch_with_tachi cfgStd chainStd envPaid "http://pub.example" "GET" [] none).result =
      .ok respPaid ∧
    ((respPaid.payment_amount.isSome ∧ respPaid.transaction_hash.isSome) ↔
      respPaid.payment_required = true) :=
  ⟨by decide,
    c7_payment_fields_present_iff_payment_required cfgStd chainStd envPaid
      "http://pub.example" "GET" [] none respPaid (by decide)⟩

/-- C8: with sufficient balance, the transaction log of a payment attempt
contains an approval exactly when the queried allowance is below the
required base-unit amount; when the allowance is already sufficient the
approval step submits nothing and the only transaction is the
`payPublisher` settlement call. -/
theorem c8_approval_submitted_only_when_allowance_short
    (cfg : TachiConfig) (chain : Chain) (info : PaymentInfo) (wei : Int)
    (ha : hasAccount cfg = true)
    (hw : decimalToWei info.amount = .ok wei)
    (hb : ¬ ((chain.balance : Int) < wei)) :
    (process_payment cfg chain info).2 =
      (if (chain.allowance : Int) < wei then [Tx.approve info.recipient wei] else []) ++
        [Tx.payPublisher (pyOr cfg.payment_processor_address info.recipient) wei] := by
  unfold process_payment processPaymentTry
  rw [ha, hw]
  simp [hb]

/-- C8 witness: a ledger with an ample pre-existing allowance — the log
holds exactly the settlement call and no approval. -/
theorem c8_approval_submitted_only_when_allowance_short_witness :
    (hasAccount cfgStd = true ∧
     decimalToWei infoStd.amount = .ok 1000000 ∧
     ¬ ((chainApproved.balance : Int) < 1000000)) ∧
    (process_payment cfgStd chainApproved infoStd).2 =
      (if (chainApproved.allowance : Int) < 1000000 then
        [Tx.approve infoStd.recipient 1000000] else []) ++
        [Tx.payPublisher (pyOr cfgStd.payment_processor_address infoStd.recipient) 1000000] :=
  ⟨⟨by decide, by decide, by decide⟩,
    c8_approval_submitted_only_when_allowance_short cfgStd chainApproved infoStd
      1000000 (by decide) (by decide) (by decide)⟩

/-- C9: on every successful paid fetch, the hash in the result is the one
the payment submission step returned, and the last request issued (the
replay) carries the header `Authorization: Bearer <that hash>`. -/
theorem c9_replay_carries_bearer_payment_hash
    (cfg : TachiConfig) (chain : Chain)
    (env : Request → Nat → Except String HttpResponse)
    (url method : String) (headers : List (String × String)) (body : Option String)
    (r : TachiResponse)
    (h : (fetch_with_tachi cfg chain env url method headers body).result = .ok r)
    (hpr : r.payment_required = true) :
    ∃ info txh,
      (process_payment cfg chain info).1 = .ok txh ∧
      r.transaction_hash = some txh ∧
      ((fetch_with_tachi cfg chain env url method headers body).reqs.getLast?.bind
        (fun q => q.headers.lookup "Authorization")) = some ("Bearer " ++ txh) := by
  generalize hout : fetch_with_tachi cfg chain env url method headers body = out at h ⊢
  unfold fetch_with_tachi at hout
  simp only [] at hout
  split at hout
  · rw [← hout] at h
    exact absurd h (by simp)
  · split at hout
    · rw [← hout] at h
      simp only [Except.ok.injEq] at h
      rw [← h] at hpr
      simp at hpr
    · split at hout
      · rw [← hout] at h
        exact absurd h (by simp)
      · rename_i info hparse
        split at hout
        · rw [← hout] at h
          exact absurd h (by simp)
        · rename_i txh txs hproc
          split at hout
          · rw [← hout] at h
            exact absurd h (by simp)
          · rename_i resp2 hresp2
            split at hout
            · rw [← hout] at h
              exact absurd h (by simp)
            · refine ⟨info, txh, ?_, ?_, ?_⟩
              · rw [hproc]
              · rw [← hout] at h
                simp only [Except.ok.injEq] at h
                rw [← h]
              · rw [← hout]
                simp only [List.getLast?, List.getLast, Option.bind]
                rw [lookup_setKey_other _ _ _ _ (by decide), lookup_setKey_self]

/-- C9 witness: the paid-fetch scenario; the replayed request's proof
header value is the submitted payment transaction hash. -/
theorem c9_replay_carries_bearer_payment_hash_witness :
    ((fetch_with_tachi cfgStd chainStd envPaid "http://pub.example" "GET" [] none).result =
        .ok respPaid ∧
      respPaid.payment_required = true) ∧
    ∃ info txh,
      (process_payment cfgStd chainStd info).1 = .ok txh ∧
      respPaid.transaction_hash = some txh ∧
      ((fetch_with_tachi cfgStd chainStd envPaid "http://pub.example" "GET" [] none).reqs.getLast?.bind
        (fun q => q.headers.lookup "Authorization")) = some ("Bearer " ++ txh) :=
  ⟨⟨by decide, by decide⟩,
    c9_replay_carries_bearer_payment_hash cfgStd chainStd envPaid
      "http://pub.example" "GET" [] none respPaid (by decide) (by decide)⟩

/-- C10: when the payment went through (hash `txh`) but the replayed
request comes back with a status other than 200, `fetch_with_tachi` fails
with a `PaymentError` whose message and details carry that status and the
already-spent transaction hash — it never returns a success result. -/
theorem c10_replay_non_200_fails_with_payment_error
    (cfg : TachiConfig) (chain : Chain)
    (env : Request → Nat → Except String HttpResponse)
    (url method : String) (headers : List (String × String)) (body : Option String)
    (resp1 : HttpResponse) (info : PaymentInfo) (txh : String) (txs : List Tx)
    (resp2 : HttpResponse)
    (h1 : (make_http_request url cfg.max_retries
        (env ⟨url, method, setKey headers "User-Agent" cfg.user_agent, body⟩)).result = .ok resp1)
    (h2 : resp1.status_code = 402)
    (h3 : parse_payment_info resp1 = .ok info)
    (h4 : process_payment cfg chain info = (.ok txh, txs))
    (h5 : (make_http_request url cfg.max_retries
        (env ⟨url, method, setKey (setKey headers "Authorization" ("Bearer " ++ txh))
          "User-Agent" cfg.user_agent, body⟩)).result = .ok resp2)
    (h6 : resp2.status_code ≠ 200) :
    (fetch_with_tachi cfg chain env url method headers body).result =
      .error (.tachi ("Payment verification failed: " ++ toString resp2.status_code)
        "PAYMENT_ERROR" (some (.verifyFail txh resp2.status_code))) := by
  unfold fetch_with_tachi
  simp only [h1, h2, h3, h4, h5, ne_eq, h6]
  simp

/-- C10 witness: a server that demands payment and then rejects the proof
with a 404; the orchestrator raises the `PaymentError` carrying the spent
hash and status 404. -/
theorem c10_replay_non_200_fails_with_payment_error_witness :
    ((make_http_request "http://pub.example" cfgStd.max_retries
        (envReplay404 ⟨"http://pub.example", "GET",
          setKey [] "User-Agent" cfgStd.user_agent, none⟩)).result = .ok resp402Std ∧
     resp402Std.status_code = 402 ∧
     parse_payment_info resp402Std = .ok infoStd ∧
     process_payment cfgStd chainStd infoStd =
       (.ok "0xhash1", [Tx.approve addrRecipient 1000000,
                        Tx.payPublisher addrRecipient 1000000]) ∧
     (make_http_request "http://pub.example" cfgStd.max_retries
        (envReplay404 ⟨"http://pub.example", "GET",
          setKey (setKey [] "Authorization" ("Bearer " ++ "0xhash1"))
            "User-Agent" cfgStd.user_agent, none⟩)).result = .ok resp404Std ∧
     resp404Std.status_code ≠ 200) ∧
    (fetch_with_tachi cfgStd chainStd envReplay404 "http://pub.example" "GET" [] none).result =
      .error (.tachi ("Payment verification failed: " ++ toString resp404Std.status_code)
        "PAYMENT_ERROR" (some (.verifyFail "0xhash1" resp404Std.status_code))) :=
  ⟨⟨by decide, by decide, by decide, by decide, by decide, by decide⟩,
    c10_replay_non_200_fails_with_payment_error cfgStd chainStd envReplay404
      "http://pub.example" "GET" [] none resp402Std infoStd "0xhash1"
      [Tx.approve addrRecipient 1000000, Tx.payPublisher addrRecipient 1000000]
      resp404Std (by decide) (by decide) (by decide) (by decide) (by decide) (by decide)⟩

end Tachi
